import Mathlib

/-!
Verification of the WATA trading core against its natural-language
specification.

Shallow embedding conventions:
- Python floats are modelled as exact rationals.
- Python dict fields that may be absent are modelled as Option values.
- Exceptions are modelled as error values of explicit result types.
- External collaborators (broker API, ledger) are modelled as explicit
  inputs; a sequence of broker responses is a function from the attempt
  index to the response.

Source files embedded here: src/trade/rules.py and src/trade/api_actions.py.
-/

namespace Wata

/-- Python round(x, 2) on a real value: round half to even at two decimals.
Used by api_actions.py wherever performance percentages are computed. -/
def roundHalfEven (x : ℚ) : ℤ :=
  let f := ⌊x⌋
  let r := x - f
  if r < 1/2 then f
  else if 1/2 < r then f + 1
  else if f % 2 = 0 then f else f + 1

/-- Two-decimal rounding used by round(value, 2) in the source. -/
def pyRound2 (x : ℚ) : ℚ := (roundHalfEven (x * 100) : ℚ) / 100

/-! ## RuleEngine: src/trade/rules.py -/

/-- Configuration of the market_hours rule (rules.py lines 80-89). -/
structure MarketHoursConfig where
  tradingStartHour : ℕ
  tradingEndHour : ℕ
  riskyStartHour : ℕ
  riskyStartMinute : ℕ
deriving Repr, DecidableEq

/-- Outcome of TradingRule.check_market_hours: which violation is raised,
if any. -/
inductive MarketHoursOutcome
  | closedDate
  | outsideHours
  | riskyHours
  | ok
deriving Repr, DecidableEq

/-- TradingRule.check_market_hours (rules.py lines 63-93), evaluated at a
current local time with the given hour and minute. The signal timestamp is
only logged by the source, so it does not appear here; todayIsClosedDate
models membership of the formatted current date in market_closed_dates. -/
def check_market_hours (cfg : MarketHoursConfig) (todayIsClosedDate : Bool)
    (hour minute : ℕ) : MarketHoursOutcome :=
  if todayIsClosedDate then .closedDate
  else if ¬ (cfg.tradingStartHour ≤ hour ∧ hour < cfg.tradingEndHour) then .outsideHours
  else if cfg.riskyStartHour ≤ hour ∧ hour < cfg.tradingEndHour ∧ cfg.riskyStartMinute ≤ minute
    then .riskyHours
  else .ok

/-- Row of DbPositionManager.get_open_positions_ids_actions: the id and the
action of a ledger position whose status is Open. -/
structure DbPositionInfo where
  positionId : String
  action : String
deriving Repr, DecidableEq

/-- TradingRule.check_if_open_position_is_same_signal (rules.py lines
111-122). Returns the id of the first open position with the same action
when the rule raises TradingRuleViolation, and none when it passes. -/
def check_if_open_position_is_same_signal (action : String)
    (openPositions : List DbPositionInfo) : Option String :=
  if action = "long" ∨ action = "short" then
    (openPositions.find? (fun p => p.action == action)).map DbPositionInfo.positionId
  else
    none

/-! ## Typed errors of src/trade/exceptions.py (the fields the claims use) -/

/-- Fields of PositionNotFoundException as raised by
PositionService.find_position_by_order_id_with_retry on retry exhaustion.
messageRetries models the retry count interpolated into the message string
(the configured max_retries value). -/
structure PositionNotFoundExc where
  orderId : String
  messageRetries : ℕ
  cancellationAttempted : Bool
  cancellationSucceeded : Bool
deriving Repr, DecidableEq

/-- Closed taxonomy of the exceptions that the embedded operations raise. -/
inductive TradeError
  | noTurbosAvailable
  | noMarketAvailable
  | insufficientFunds (availableFunds requiredPrice : ℚ) (calculatedAmount : ℤ)
  | invalidAskPrice
  | orderPlacement
  | apiRequest
  | saxoApiError
  | positionNotFound (e : PositionNotFoundExc)
  | databaseOperation (entityId : String)
deriving Repr, DecidableEq

/-- Result of an operation that either returns a value or raises. -/
inductive Step (α : Type)
  | ok (a : α)
  | fail (e : TradeError)
deriving Repr, DecidableEq

/-! ## TradingOrchestrator._calculate_bid_amount (api_actions.py 860-901) -/

/-- TradingOrchestrator._calculate_bid_amount. askPrice is the resolved
latest_ask (with the quote Ask fallback applied); none or a non-positive
value raises ValueError, modelled as invalidAskPrice. -/
def calculate_bid_amount (askPrice : Option ℚ) (spendingPower : ℚ)
    (maxAccountPercent : ℚ) (safetyMarginUnits : ℚ) : Step ℤ :=
  match askPrice with
  | none => .fail .invalidAskPrice
  | some ask =>
    if ask ≤ 0 then .fail .invalidAskPrice
    else
      let availableFunds := spendingPower * (maxAccountPercent / 100)
      let requiredFunds := ask * (1 + safetyMarginUnits)
      let preAmount := if availableFunds < requiredFunds then 0
                       else availableFunds / ask - safetyMarginUnits
      let amount := ⌊preAmount⌋
      if amount ≤ 0 then .fail (.insufficientFunds availableFunds ask amount)
      else .ok amount

/-! ## PositionService.find_position_by_order_id_with_retry
(api_actions.py 774-821) -/

/-- One broker open position, restricted to the fields this service reads. -/
structure BrokerPosition where
  positionId : String
  sourceOrderId : Option String
deriving Repr, DecidableEq

/-- Module constant DEFAULT_RETRY_ATTEMPTS (api_actions.py line 47), baked
into the tenacity decorator of _find_position_attempt at import time. -/
def DEFAULT_RETRY_ATTEMPTS : ℕ := 5

/-- Body of PositionService._find_position_attempt: scan the open positions
of one get_open_positions response for a matching SourceOrderId. -/
def find_position_attempt (positions : List BrokerPosition) (orderId : String) :
    Option BrokerPosition :=
  positions.find? (fun p => p.sourceOrderId == some orderId)

/-- The tenacity retry loop around _find_position_attempt: up to fuel
attempts, attempt k polling broker k. Returns the found position together
with the number of attempts made, or none when all attempts failed. -/
def findPositionLoop (broker : ℕ → List BrokerPosition) (orderId : String) :
    ℕ → ℕ → Option (BrokerPosition × ℕ)
  | _, 0 => none
  | k, fuel + 1 =>
    match find_position_attempt (broker k) orderId with
    | some p => some (p, k + 1)
    | none => findPositionLoop broker orderId (k + 1) fuel

/-- Observable outcome of find_position_by_order_id_with_retry:
how many polling attempts ran, how many times cancel_order was called,
and the returned position or the raised PositionNotFoundException. -/
inductive FindPositionOutcome
  | found (attemptsMade cancelCalls : ℕ) (p : BrokerPosition)
  | notFound (attemptsMade cancelCalls : ℕ) (e : PositionNotFoundExc)
deriving Repr, DecidableEq

/-- PositionService.find_position_by_order_id_with_retry. cfgMaxRetries is
retry_config max_retries, which the source reads only for the message of
the raised exception; the attempt budget of the tenacity decorator is the
module constant DEFAULT_RETRY_ATTEMPTS. cancelOrderSucceeds is the boolean
returned by OrderService.cancel_order when it is called. -/
def find_position_by_order_id_with_retry (cfgMaxRetries : ℕ)
    (broker : ℕ → List BrokerPosition) (orderId : String)
    (cancelOrderSucceeds : Bool) : FindPositionOutcome :=
  match findPositionLoop broker orderId 0 DEFAULT_RETRY_ATTEMPTS with
  | some (p, n) => .found n 0 p
  | none =>
    .notFound DEFAULT_RETRY_ATTEMPTS 1
      ⟨orderId, cfgMaxRetries, true, cancelOrderSucceeds⟩

/-! ## TradingOrchestrator.execute_trade_signal (api_actions.py 904-1022) -/

/-- The part of an InstrumentService.find_turbos result that the
orchestrator uses for sizing: askPrice is latest_ask with the quote Ask
fallback already resolved (api_actions.py 863-865). -/
structure TurboInfo where
  uic : ℕ
  askPrice : Option ℚ
deriving Repr, DecidableEq

/-- Environment of one execute_trade_signal run: the outcome each external
step would have if reached. A findPosition field of fail (positionNotFound e)
models the retry-exhaustion raise of find_position_by_order_id_with_retry
(which already attempted cancellation itself); any other fail models an
unexpected error re-raised by that service. insertOrderOk and
insertPositionOk model the two ledger inserts of step 6. -/
structure ExecEnv where
  findTurbos : Step TurboInfo
  spendingPower : Step ℚ
  maxFundsPercent : ℚ
  safetyMarginUnits : ℚ
  placeOrder : Step String
  findPosition : Step BrokerPosition
  insertOrderOk : Bool
  insertPositionOk : Bool
deriving Repr, DecidableEq

/-- Observable outcome of execute_trade_signal: the returned value or
re-raised error, and the order id on which the orchestrator itself
attempted OrderService.cancel_order (api_actions.py 1011-1020), if any. -/
structure ExecOutcome where
  result : Step String
  cancelAttempted : Option String
deriving Repr, DecidableEq

/-- Whether an error is the PositionNotFoundException case, which
execute_trade_signal re-raises without compensation (api_actions.py
1001-1006). -/
def isPositionNotFound : TradeError → Bool
  | .positionNotFound _ => true
  | _ => false

/-- TradingOrchestrator.execute_trade_signal over an ExecEnv. On success
the result carries the placed order id (standing in for the returned
details dictionary). The compensating cancel_order call runs only when
validated_order is set and confirmed_position is not (api_actions.py
1011). -/
def execute_trade_signal (env : ExecEnv) : ExecOutcome :=
  match env.findTurbos with
  | .fail e => ⟨.fail e, none⟩
  | .ok turbo =>
    match env.spendingPower with
    | .fail e => ⟨.fail e, none⟩
    | .ok sp =>
      match calculate_bid_amount turbo.askPrice sp env.maxFundsPercent
          env.safetyMarginUnits with
      | .fail e => ⟨.fail e, none⟩
      | .ok _amount =>
        match env.placeOrder with
        | .fail e => ⟨.fail e, none⟩
        | .ok orderId =>
          match env.findPosition with
          | .fail (.positionNotFound e) => ⟨.fail (.positionNotFound e), none⟩
          | .fail e => ⟨.fail e, some orderId⟩
          | .ok _pos =>
            if env.insertOrderOk && env.insertPositionOk then ⟨.ok orderId, none⟩
            else ⟨.fail (.databaseOperation orderId), none⟩

/-- The order id of the market order placed by an execute_trade_signal run,
when execution reaches step 4 and the order is accepted. -/
def placedOrderId (env : ExecEnv) : Option String :=
  match env.findTurbos with
  | .fail _ => none
  | .ok turbo =>
    match env.spendingPower with
    | .fail _ => none
    | .ok sp =>
      match calculate_bid_amount turbo.askPrice sp env.maxFundsPercent
          env.safetyMarginUnits with
      | .fail _ => none
      | .ok _ =>
        match env.placeOrder with
        | .fail _ => none
        | .ok orderId => some orderId

/-! ## InstrumentService.find_turbos, quote phase (api_actions.py 321-535)

The claims about find_turbos concern the bid-availability retry loop and
the filters that follow it, i.e. the function from step 4 (fetching
InfoPrices for the already-searched, parsed and sorted identifiers) to
step 7 (selecting a candidate). That phase is embedded here; the initial
instrument search, description parsing and knock-out sort (steps 1-3) only
produce the identifier list the quote fetch is made for. -/

/-- Quote section of one InfoPrices item, fields as read by find_turbos. -/
structure Quote where
  bid : Option ℚ
  priceTypeAsk : Option String
  priceTypeBid : Option String
  marketState : Option String
deriving Repr, DecidableEq

/-- One item of an InfoPrices response Data array. -/
structure InfoPriceItem where
  uic : ℕ
  quote : Option Quote
deriving Repr, DecidableEq

/-- Whether the item has a Quote section. -/
def hasQuoteField (it : InfoPriceItem) : Bool := it.quote.isSome

/-- Whether the item has a Quote section that lacks the Bid attribute. -/
def quoteMissingBid (it : InfoPriceItem) : Bool :=
  match it.quote with
  | some q => q.bid.isNone
  | none => false

/-- Whether the item has a Quote with a Bid present (the final filter of
api_actions.py 462-472). -/
def hasBidAttr (it : InfoPriceItem) : Bool :=
  match it.quote with
  | some q => q.bid.isSome
  | none => false

/-- The Bid price of an item; items reaching the price filter always have
one, so the default is never read there. -/
def quoteBid (it : InfoPriceItem) : ℚ :=
  match it.quote with
  | some q => q.bid.getD 0
  | none => 0

/-- One iteration of the bid-availability check deciding to retry
(api_actions.py 335-398): no InfoPrice data received, or strictly more
than 50 percent of the items that have a Quote section lack a Bid. An
empty response list stands for a missing or empty Data array. -/
def bidCheckFails (r : List InfoPriceItem) : Bool :=
  if r.isEmpty then true
  else
    let withQuote := r.filter hasQuoteField
    if withQuote.isEmpty then false
    else
      let numMissing := (withQuote.filter quoteMissingBid).length
      decide ((numMissing : ℚ) / withQuote.length * 100 > 50)

/-- The while loop of api_actions.py 327-398: attempts k is the InfoPrices
response of the k-th fetch; the loop retries while the bid check fails
and the retry budget is not exhausted, and returns the last response
fetched (the value response_infoprices holds after the loop). -/
def bidRetryLoop (attempts : ℕ → List InfoPriceItem) :
    ℕ → ℕ → List InfoPriceItem → List InfoPriceItem
  | 0, _, resp => resp
  | fuel + 1, k, _ =>
    let r := attempts k
    if bidCheckFails r then bidRetryLoop attempts fuel (k + 1) r
    else r

/-- Market-state filter of step 5 (api_actions.py 496-501): PriceTypeAsk
and PriceTypeBid not NoMarket, MarketState not Closed. Absent fields pass
the comparison, as in the source. -/
def isMarketAvailable (it : InfoPriceItem) : Bool :=
  match it.quote with
  | some q =>
      q.priceTypeAsk ≠ some "NoMarket" && q.priceTypeBid ≠ some "NoMarket" &&
        q.marketState ≠ some "Closed"
  | none => false

/-- First element of the stable sort of items by bid price (api_actions.py
532-535): the first item with the least bid, or with the greatest bid when
descending. -/
def selectByBid (descending : Bool) (items : List InfoPriceItem) :
    Option InfoPriceItem :=
  items.foldl
    (fun acc it =>
      match acc with
      | none => some it
      | some b =>
        if (if descending then quoteBid b < quoteBid it else quoteBid it < quoteBid b)
        then some it else some b)
    none

/-- Errors raised by the quote phase of find_turbos. -/
inductive FindTurbosError
  | noMarketAvailable
  | noTurbosAvailable
deriving Repr, DecidableEq

/-- Steps 5-7 of find_turbos applied to the response held after the retry
loop (api_actions.py 447-535): drop items without a Bid, filter market
state, filter the bid price range inclusively, and select the first
candidate of the final bid sort (descending exactly for short). -/
def postBidFilterPhase (resp : List InfoPriceItem) (minPrice maxPrice : ℚ)
    (keywords : String) : Except FindTurbosError InfoPriceItem :=
  if resp.isEmpty then .error .noMarketAvailable
  else
    let withBid := resp.filter hasBidAttr
    if withBid.isEmpty then .error .noMarketAvailable
    else
      let available := withBid.filter isMarketAvailable
      if available.isEmpty then .error .noMarketAvailable
      else
        let priceFiltered :=
          available.filter (fun it => minPrice ≤ quoteBid it && quoteBid it ≤ maxPrice)
        if priceFiltered.isEmpty then .error .noTurbosAvailable
        else
          match selectByBid (keywords.toLower == "short") priceFiltered with
          | some it => .ok it
          | none => .error .noTurbosAvailable

/-- Quote phase of find_turbos: run the bid-availability retry loop over
the quote fetches, then apply the post-loop filters and selection.
maxRetries is retry_config max_retries, minPrice and maxPrice the
turbo_preference price_range bounds, keywords the signal direction. -/
def find_turbos_quote_phase (attempts : ℕ → List InfoPriceItem)
    (maxRetries : ℕ) (minPrice maxPrice : ℚ) (keywords : String) :
    Except FindTurbosError InfoPriceItem :=
  postBidFilterPhase (bidRetryLoop attempts maxRetries 0 []) minPrice maxPrice keywords

/-! ## PerformanceMonitor.check_all_positions_performance
(api_actions.py 1177-1337) -/

/-- Configured performance_thresholds. -/
structure Thresholds where
  stoplossPercent : ℚ
  maxProfitPercent : ℚ
deriving Repr, DecidableEq

/-- Which closure trigger fired for a position. -/
inductive CloseReason
  | stoploss
  | takeprofit
  | dailyTarget
deriving Repr, DecidableEq

/-- The closure decision of api_actions.py 1227-1261 for one position with
computed performance percent: stoploss, then takeprofit, then the daily
profit target check on the combined factor rounded to two decimals. -/
def closeDecision (th : Thresholds) (dailyTargetPercent todayRealizedPercent
    performancePercent : ℚ) : Option CloseReason :=
  if performancePercent ≤ th.stoplossPercent then some .stoploss
  else if th.maxProfitPercent ≤ performancePercent then some .takeprofit
  else
    let todayProfitFactor := 1 + todayRealizedPercent / 100
    let positionProfitFactor := 1 + performancePercent / 100
    let potentialTodayPercent :=
      pyRound2 ((todayProfitFactor * positionProfitFactor - 1) * 100)
    if dailyTargetPercent ≤ potentialTodayPercent then some .dailyTarget
    else none

/-- What one iteration of the per-position loop of
check_all_positions_performance produces for a position found on the
broker (api_actions.py 1202-1269): the computed performance percent, the
queued position_max_performance_percent update, and the closure trigger,
each none when not produced. -/
structure PerfStep where
  performancePercent : Option ℚ
  maxPerfUpdate : Option ℚ
  closeReason : Option CloseReason
deriving Repr, DecidableEq

/-- One iteration of the per-position loop of
check_all_positions_performance. openPrice and bid are the PositionBase
OpenPrice and PositionView Bid of the broker record; storedMax the value
returned by get_max_position_percent (none models a missing value, mapped
to negative infinity by the source). The guard mirrors the Python
truthiness test on open_price and current_bid (api_actions.py 1214): a
missing or zero value skips the position. -/
def check_position_performance_step (th : Thresholds)
    (dailyTargetPercent todayRealizedPercent : ℚ) (storedMax : Option ℚ)
    (openPrice bid : Option ℚ) : PerfStep :=
  match openPrice, bid with
  | some op, some b =>
    if op = 0 ∨ b = 0 then ⟨none, none, none⟩
    else
      let perf := pyRound2 (b * 100 / op - 100)
      let upd :=
        match storedMax with
        | none => some perf
        | some m => if m < perf then some perf else none
      ⟨some perf, upd, closeDecision th dailyTargetPercent todayRealizedPercent perf⟩
  | _, _ => ⟨none, none, none⟩

/-- Effect of applying a queued position_max_performance_percent update
(api_actions.py 1326-1334) to the stored value. -/
def applyMaxPerfUpdate (stored upd : Option ℚ) : Option ℚ :=
  match upd with
  | some v => some v
  | none => stored

/-! ## PerformanceMonitor.sync_db_positions_with_api
(api_actions.py 1339-1430) -/

/-- ClosedPosition section of one broker closed-positions item, restricted
to the fields the sync reads. -/
structure ClosedApiPosition where
  openingPositionId : String
  closingPrice : Option ℚ
  openPrice : Option ℚ
  amount : Option ℚ
  profitLossOnTrade : Option ℚ
deriving Repr, DecidableEq

/-- Ledger update prepared for a position found closed on the broker
(api_actions.py 1403-1411). -/
structure CloseUpdateData where
  positionClosePrice : Option ℚ
  positionProfitLoss : Option ℚ
  positionTotalClosePrice : Option ℚ
  positionStatus : String
  positionTotalPerformancePercent : Option ℚ
  positionCloseReason : String
deriving Repr, DecidableEq

/-- Builds the update record for one matched closed position
(api_actions.py 1385-1411). -/
def mkSyncCloseUpdate (c : ClosedApiPosition) : CloseUpdateData :=
  let totalClose :=
    match c.closingPrice, c.amount with
    | some cp, some a => some (cp * a)
    | _, _ => none
  let perf :=
    match c.openPrice, c.closingPrice with
    | some op, some cp => if op = 0 then none else some (pyRound2 (cp * 100 / op - 100))
    | _, _ => none
  ⟨c.closingPrice, c.profitLossOnTrade, totalClose, "Closed", perf, "SaxoAPI"⟩

/-- PerformanceMonitor.sync_db_positions_with_api as a function of the
ledger open ids, the broker open ids and the broker recently-closed page.
It returns the updates_for_db list and performs no ledger write itself
(the caller applies the updates). The closed map keyed by
OpeningPositionId keeps the last entry for duplicate keys, as a dict
comprehension does. -/
def sync_db_positions_with_api (dbOpenIds : List String)
    (apiOpenIds : List String) (apiClosed : List ClosedApiPosition) :
    List (String × CloseUpdateData) :=
  if dbOpenIds.isEmpty then []
  else
    let potentialClosedInDb := dbOpenIds.filter (fun i => !(apiOpenIds.contains i))
    if potentialClosedInDb.isEmpty then []
    else
      potentialClosedInDb.filterMap (fun i =>
        match apiClosed.reverse.find? (fun c => c.openingPositionId == i) with
        | some c => some (i, mkSyncCloseUpdate c)
        | none => none)

/-! ## Claim statements under test

Each definition below states one spec claim verbatim over the embedding,
so that a counterexample can refute it as stated. -/

/-- Claim statement of C1: whenever a market order was placed and the run
fails with an error other than PositionNotFoundException, the orchestrator
attempts cancel_order on the placed order. -/
def ExecuteCompensationClaim : Prop :=
  ∀ (env : ExecEnv) (orderId : String) (e : TradeError),
    placedOrderId env = some orderId →
    (execute_trade_signal env).result = .fail e →
    isPositionNotFound e = false →
    (execute_trade_signal env).cancelAttempted = some orderId

/-- Claim statement of C2: when every polling attempt misses, the service
makes exactly the configured max_retries attempts, cancels once, and
raises PositionNotFoundException with the cancellation fields. -/
def FindPositionConfiguredRetriesClaim : Prop :=
  ∀ (cfgMaxRetries : ℕ) (broker : ℕ → List BrokerPosition)
    (orderId : String) (cancelOrderSucceeds : Bool),
    (∀ k, find_position_attempt (broker k) orderId = none) →
    find_position_by_order_id_with_retry cfgMaxRetries broker orderId
        cancelOrderSucceeds =
      .notFound cfgMaxRetries 1 ⟨orderId, cfgMaxRetries, true, cancelOrderSucceeds⟩

/-- Claim statement of C3: when every quote-fetch attempt returns no data
or leaves strictly more than half of the quoted items without a bid,
find_turbos raises NoMarketAvailableException. -/
def BidRetryExhaustionClaim : Prop :=
  ∀ (attempts : ℕ → List InfoPriceItem) (maxRetries : ℕ)
    (minPrice maxPrice : ℚ) (keywords : String),
    (∀ k, bidCheckFails (attempts k) = true) →
    find_turbos_quote_phase attempts maxRetries minPrice maxPrice keywords =
      .error .noMarketAvailable

/-- Claim statement of C5: within the trading window on a non-closed
date, the risky-hours violation fires exactly when (hour, minute) is
lexicographically at or after (riskyStartHour, riskyStartMinute). -/
def MarketHoursLexClaim : Prop :=
  ∀ (cfg : MarketHoursConfig) (hour minute : ℕ),
    cfg.tradingStartHour ≤ hour → hour < cfg.tradingEndHour →
    (check_market_hours cfg false hour minute = .riskyHours ↔
      (cfg.riskyStartHour < hour ∨
        (cfg.riskyStartHour = hour ∧ cfg.riskyStartMinute ≤ minute)))

/-- Claim statement of C7: the closure decision is the first match of
stoploss, takeprofit, then the daily-target condition on the exact
(unrounded) combined factor expressed as a percent. -/
def DailyTargetExactClaim : Prop :=
  ∀ (th : Thresholds) (dailyTargetPercent todayRealizedPercent
      performancePercent : ℚ),
    closeDecision th dailyTargetPercent todayRealizedPercent performancePercent =
      (if performancePercent ≤ th.stoplossPercent then some CloseReason.stoploss
       else if th.maxProfitPercent ≤ performancePercent then some CloseReason.takeprofit
       else if dailyTargetPercent ≤
           ((1 + todayRealizedPercent / 100) * (1 + performancePercent / 100) - 1) * 100
         then some CloseReason.dailyTarget
       else none)

/-- An InfoPrices item with a Quote section that lacks the Bid attribute. -/
def bidMissingItem (uic : ℕ) : InfoPriceItem := ⟨uic, some ⟨none, none, none, none⟩⟩

/-- An InfoPrices item with a tradable Quote whose Bid is 10. -/
def bidPresentItem : InfoPriceItem := ⟨1, some ⟨some 10, none, none, none⟩⟩

/-- A quote response of four items with a Quote section of which three
lack a bid (75 percent missing, above the 50 percent retry threshold). -/
def majorityMissingResp : List InfoPriceItem :=
  [bidPresentItem, bidMissingItem 2, bidMissingItem 3, bidMissingItem 4]

/-! ## Theorems -/

/-- C4: for spendingPower ≥ 0, askPrice > 0 and non-negative integer
safety margin and funds percentage, _calculate_bid_amount returns
floor((spendingPower * maxFundsPercent/100) / askPrice) - safetyMargin
when that value is positive, and raises InsufficientFundsException
carrying available_funds, required_price and the calculated amount (which
is 0 in every failing case) when that value is at most 0. -/
theorem calculate_bid_amount_spec (sp ask : ℚ) (pct margin : ℕ)
    (_hsp : 0 ≤ sp) (hask : 0 < ask) :
    (0 < ⌊sp * ((pct : ℚ) / 100) / ask⌋ - (margin : ℤ) →
      calculate_bid_amount (some ask) sp pct margin =
        Step.ok (⌊sp * ((pct : ℚ) / 100) / ask⌋ - (margin : ℤ))) ∧
    (⌊sp * ((pct : ℚ) / 100) / ask⌋ - (margin : ℤ) ≤ 0 →
      calculate_bid_amount (some ask) sp pct margin =
        Step.fail (TradeError.insufficientFunds (sp * ((pct : ℚ) / 100)) ask 0)) := by
  have hne : ¬ ask ≤ 0 := not_le.mpr hask
  by_cases hlt : sp * ((pct : ℚ) / 100) < ask * (1 + (margin : ℚ))
  · have hle : ⌊sp * ((pct : ℚ) / 100) / ask⌋ ≤ (margin : ℤ) := by
      have h1 : sp * ((pct : ℚ) / 100) / ask < 1 + (margin : ℚ) := by
        rw [div_lt_iff₀ hask]
        linarith [hlt]
      have h2 : ⌊sp * ((pct : ℚ) / 100) / ask⌋ < 1 + (margin : ℤ) := by
        apply Int.floor_lt.mpr
        push_cast
        exact h1
      omega
    constructor
    · intro hpos; omega
    · intro _
      simp only [calculate_bid_amount, hne, if_false, if_pos hlt]
      norm_num
  · have hge : 1 + (margin : ℤ) ≤ ⌊sp * ((pct : ℚ) / 100) / ask⌋ := by
      apply Int.le_floor.mpr
      rw [le_div_iff₀ hask]
      push_cast
      linarith [not_lt.mp hlt]
    have hfloor : ⌊sp * ((pct : ℚ) / 100) / ask - (margin : ℚ)⌋
        = ⌊sp * ((pct : ℚ) / 100) / ask⌋ - (margin : ℤ) :=
      Int.floor_sub_nat _ _
    constructor
    · intro _
      simp only [calculate_bid_amount, hne, if_false, if_neg hlt, hfloor]
      rw [if_neg (by omega)]
    · intro hle
      exfalso; omega

/-- Witness for C4: spendingPower 1000, askPrice 10, maxFundsPercent 100,
safety margin 1 yields amount 99; spendingPower 0 raises
InsufficientFundsException. -/
theorem calculate_bid_amount_spec_witness :
    calculate_bid_amount (some 10) 1000 ((100 : ℕ) : ℚ) ((1 : ℕ) : ℚ) = Step.ok 99 ∧
    calculate_bid_amount (some 10) 0 ((100 : ℕ) : ℚ) ((1 : ℕ) : ℚ) =
      Step.fail (TradeError.insufficientFunds (0 * (((100 : ℕ) : ℚ) / 100)) 10 0) := by
  constructor
  · have h := (calculate_bid_amount_spec 1000 10 100 1 (by norm_num) (by norm_num)).1
      (by norm_num)
    rw [h]; norm_num
  · have h := (calculate_bid_amount_spec 0 10 100 1 (by norm_num) (by norm_num)).2
      (by norm_num)
    rw [h]

/-- C5 counterexample: with trading hours [9, 22), risky start 15:30, the
time 16:00 is lexicographically after (15, 30) yet check_market_hours
accepts it, because the source compares the minute against
risky_trading_start_minute in every hour of the tail. -/
theorem market_hours_lex_claim_false : ¬ MarketHoursLexClaim := by
  intro h
  have h16 := (h ⟨9, 22, 15, 30⟩ 16 0 (by norm_num) (by norm_num)).mpr
    (Or.inl (by norm_num))
  exact absurd h16 (by decide)

/-- C5 amended: within the trading window on a non-closed date, the
risky-hours violation fires exactly when riskyStartHour ≤ hour and
riskyStartMinute ≤ minute; minutes below riskyStartMinute are accepted in
every hour of the tail. -/
theorem check_market_hours_risky_gate (cfg : MarketHoursConfig)
    (hour minute : ℕ) (hs : cfg.tradingStartHour ≤ hour)
    (he : hour < cfg.tradingEndHour) :
    check_market_hours cfg false hour minute = .riskyHours ↔
      (cfg.riskyStartHour ≤ hour ∧ cfg.riskyStartMinute ≤ minute) := by
  unfold check_market_hours
  rw [if_neg (by simp), if_neg (not_not_intro ⟨hs, he⟩)]
  split_ifs with hc
  · exact iff_of_true rfl ⟨hc.1, hc.2.2⟩
  · refine iff_of_false (by simp) ?_
    rintro ⟨h1, h2⟩
    exact hc ⟨h1, he, h2⟩

/-- Witness for C5 amended: 15:45 with risky start 15:30 inside trading
hours [9, 22) is rejected as risky. -/
theorem check_market_hours_risky_gate_witness :
    check_market_hours ⟨9, 22, 15, 30⟩ false 15 45 = .riskyHours :=
  (check_market_hours_risky_gate ⟨9, 22, 15, 30⟩ 15 45 (by norm_num)
    (by norm_num)).mpr ⟨by norm_num, by norm_num⟩

/-- C6: for ledger open positions, whose action field is long or short,
the duplicate-direction guard raises TradingRuleViolation exactly when
some open position has the same action as the signal. -/
theorem check_same_signal_iff (action : String) (ps : List DbPositionInfo)
    (hps : ∀ p ∈ ps, p.action = "long" ∨ p.action = "short") :
    (check_if_open_position_is_same_signal action ps).isSome ↔
      ∃ p ∈ ps, p.action = action := by
  unfold check_if_open_position_is_same_signal
  by_cases ha : action = "long" ∨ action = "short"
  · rw [if_pos ha]
    simp [List.find?_isSome]
  · rw [if_neg ha]
    simp only [Option.isSome_none, Bool.false_eq_true, false_iff]
    rintro ⟨p, hp, he⟩
    rcases hps p hp with h | h <;> rw [he] at h
    · exact ha (Or.inl h)
    · exact ha (Or.inr h)

/-- Witness for C6: a long signal against one open long position
violates the rule. -/
theorem check_same_signal_iff_witness :
    (check_if_open_position_is_same_signal "long"
      [⟨"p1", "long"⟩]).isSome = true :=
  (check_same_signal_iff "long" [⟨"p1", "long"⟩]
    (by intro p hp; simp at hp; rw [hp]; exact Or.inl rfl)).mpr
    ⟨⟨"p1", "long"⟩, by simp, rfl⟩

/-- When every polling attempt in range misses, the retry loop exhausts
its fuel and reports no position. -/
lemma findPositionLoop_all_none (broker : ℕ → List BrokerPosition)
    (orderId : String) :
    ∀ fuel k, (∀ j, k ≤ j → j < k + fuel →
        find_position_attempt (broker j) orderId = none) →
      findPositionLoop broker orderId k fuel = none := by
  intro fuel
  induction fuel with
  | zero => intro k _; rfl
  | succ n ih =>
    intro k h
    have hk : find_position_attempt (broker k) orderId = none :=
      h k le_rfl (by omega)
    simp only [findPositionLoop, hk]
    exact ih (k + 1) (fun j hj1 hj2 => h j (by omega) (by omega))

/-- C2 counterexample: with max_retries configured to 3 and a broker that
never reports the position, the service still makes 5 polling attempts
(the DEFAULT_RETRY_ATTEMPTS constant baked into the tenacity decorator),
not the configured 3; only the exception message reports 3. -/
theorem find_position_configured_retries_claim_false :
    ¬ FindPositionConfiguredRetriesClaim := by
  intro h
  have h3 := h 3 (fun _ => []) "O1" true (fun _ => rfl)
  exact absurd h3 (by decide)

/-- C2 amended: when every one of the first DEFAULT_RETRY_ATTEMPTS polling
attempts misses, the service stops after exactly DEFAULT_RETRY_ATTEMPTS
attempts (regardless of the configured max_retries, which only appears in
the message), calls cancel_order once, and raises
PositionNotFoundException with the order id, cancellation_attempted true
and cancellation_succeeded equal to the cancel_order result. -/
theorem find_position_retry_exhaustion (cfgMaxRetries : ℕ)
    (broker : ℕ → List BrokerPosition) (orderId : String)
    (cancelOrderSucceeds : Bool)
    (h : ∀ k, k < DEFAULT_RETRY_ATTEMPTS →
      find_position_attempt (broker k) orderId = none) :
    find_position_by_order_id_with_retry cfgMaxRetries broker orderId
        cancelOrderSucceeds =
      .notFound DEFAULT_RETRY_ATTEMPTS 1
        ⟨orderId, cfgMaxRetries, true, cancelOrderSucceeds⟩ := by
  have hloop : findPositionLoop broker orderId 0 DEFAULT_RETRY_ATTEMPTS = none :=
    findPositionLoop_all_none broker orderId DEFAULT_RETRY_ATTEMPTS 0
      (fun j _ hj2 => h j (by omega))
  unfold find_position_by_order_id_with_retry
  rw [hloop]

/-- Witness for C2 amended: an always-empty broker with max_retries 5. -/
theorem find_position_retry_exhaustion_witness :
    find_position_by_order_id_with_retry 5 (fun _ => []) "O2" false =
      .notFound DEFAULT_RETRY_ATTEMPTS 1 ⟨"O2", 5, true, false⟩ :=
  find_position_retry_exhaustion 5 (fun _ => []) "O2" false (fun _ _ => rfl)

/-- Evaluation of the bid amount for the concrete executions used below:
spending power 1000, ask 10, full funds percentage, margin 1. -/
lemma calc_bid_amount_1000_10 :
    calculate_bid_amount (some 10) 1000 100 1 = Step.ok 99 := by
  simp only [calculate_bid_amount]
  norm_num

/-- C1 counterexample: a run in which the order is placed, the position is
confirmed, and the step-6 ledger persistence then fails, re-raises
DatabaseOperationException without any cancel_order attempt, because the
compensation guard requires confirmed_position to be unset
(api_actions.py 1011). -/
theorem execute_compensation_claim_false : ¬ ExecuteCompensationClaim := by
  intro h
  have hc := h ⟨Step.ok ⟨1, some 10⟩, Step.ok 1000, 100, 1, Step.ok "O1",
      Step.ok ⟨"p1", some "O1"⟩, true, false⟩ "O1"
      (TradeError.databaseOperation "O1")
    (by simp [placedOrderId, calc_bid_amount_1000_10])
    (by simp [execute_trade_signal, calc_bid_amount_1000_10])
    rfl
  rw [show execute_trade_signal ⟨Step.ok ⟨1, some 10⟩, Step.ok 1000, 100, 1,
      Step.ok "O1", Step.ok ⟨"p1", some "O1"⟩, true, false⟩ =
      ⟨Step.fail (TradeError.databaseOperation "O1"), none⟩
    from by simp [execute_trade_signal, calc_bid_amount_1000_10]] at hc
  exact Option.noConfusion hc

/-- C1 amended: once the market order is placed, the orchestrator attempts
cancel_order and re-raises exactly when position confirmation fails with
an error other than PositionNotFoundException; a PositionNotFoundException
is re-raised without an orchestrator-level cancellation (the service
already attempted it), and a step-6 ledger-persistence failure after the
position is confirmed raises DatabaseOperationException with no
cancellation attempt. -/
theorem execute_compensation_scope (env : ExecEnv) (orderId : String)
    (hplaced : placedOrderId env = some orderId) :
    (∀ e, env.findPosition = Step.fail e → isPositionNotFound e = false →
      execute_trade_signal env = ⟨Step.fail e, some orderId⟩) ∧
    (∀ ex, env.findPosition = Step.fail (TradeError.positionNotFound ex) →
      execute_trade_signal env =
        ⟨Step.fail (TradeError.positionNotFound ex), none⟩) ∧
    (∀ p, env.findPosition = Step.ok p →
      (env.insertOrderOk && env.insertPositionOk) = false →
      execute_trade_signal env =
        ⟨Step.fail (TradeError.databaseOperation orderId), none⟩) := by
  obtain ⟨ft, sp, mf, sm, po, fp, io, ip⟩ := env
  cases ft with
  | fail e => simp [placedOrderId] at hplaced
  | ok turbo =>
  cases sp with
  | fail e => simp [placedOrderId] at hplaced
  | ok spv =>
  cases hcalc : calculate_bid_amount turbo.askPrice spv mf sm with
  | fail e => simp [placedOrderId, hcalc] at hplaced
  | ok amount =>
  cases po with
  | fail e => simp [placedOrderId, hcalc] at hplaced
  | ok oid =>
  have hoid : oid = orderId := by
    simpa [placedOrderId, hcalc] using hplaced
  subst hoid
  refine ⟨?_, ?_, ?_⟩
  · intro e hfe hnot
    subst hfe
    cases e <;> simp_all [execute_trade_signal, isPositionNotFound]
  · intro ex hfe
    subst hfe
    simp [execute_trade_signal, hcalc]
  · intro p hfp hio
    subst hfp
    simp [execute_trade_signal, hcalc, hio]

/-- Witness for C1 amended: a confirmation failure with ApiRequest after a
placed order triggers the compensating cancellation on that order. -/
theorem execute_compensation_scope_witness :
    execute_trade_signal ⟨Step.ok ⟨1, some 10⟩, Step.ok 1000, 100, 1,
        Step.ok "O9", Step.fail TradeError.apiRequest, true, true⟩ =
      ⟨Step.fail TradeError.apiRequest, some "O9"⟩ :=
  (execute_compensation_scope _ "O9"
    (by simp [placedOrderId, calc_bid_amount_1000_10])).1
    TradeError.apiRequest rfl rfl

/-- One failing iteration of the bid retry loop recurses with one less
unit of fuel. -/
lemma bidRetryLoop_step (attempts : ℕ → List InfoPriceItem)
    (fuel k : ℕ) (r : List InfoPriceItem)
    (hk : bidCheckFails (attempts k) = true) :
    bidRetryLoop attempts (fuel + 1) k r =
      bidRetryLoop attempts fuel (k + 1) (attempts k) := by
  simp only [bidRetryLoop, hk, if_true]

/-- When the bid check fails on every attempt, the retry loop consumes all
its fuel and holds the last response fetched. -/
lemma bidRetryLoop_all_fail (attempts : ℕ → List InfoPriceItem)
    (h : ∀ k, bidCheckFails (attempts k) = true) :
    ∀ fuel k r, bidRetryLoop attempts (fuel + 1) k r = attempts (k + fuel) := by
  intro fuel
  induction fuel with
  | zero =>
    intro k r
    rw [bidRetryLoop_step attempts 0 k r (h k)]
    simp [bidRetryLoop]
  | succ n ih =>
    intro k r
    rw [bidRetryLoop_step attempts (n + 1) k r (h k), ih (k + 1) (attempts k)]
    congr 1
    omega

/-- When no surviving item has a bid, the post-loop phase raises
NoMarketAvailableException. -/
lemma postBidFilterPhase_no_bid (resp : List InfoPriceItem)
    (minPrice maxPrice : ℚ) (keywords : String)
    (h : resp.filter hasBidAttr = []) :
    postBidFilterPhase resp minPrice maxPrice keywords =
      .error .noMarketAvailable := by
  unfold postBidFilterPhase
  by_cases hr : resp.isEmpty
  · rw [if_pos hr]
  · rw [if_neg hr]
    simp [h]

/-- C3 counterexample: with four quoted items of which three lack a bid on
every attempt (75 percent, above the threshold) and max_retries 3,
find_turbos does not raise NoMarketAvailableException: after exhausting
the retries it keeps the one item that has a bid and proceeds to select
it. -/
theorem bid_retry_exhaustion_claim_false : ¬ BidRetryExhaustionClaim := by
  intro h
  have hbad : bidCheckFails majorityMissingResp = true := by
    norm_num [bidCheckFails, majorityMissingResp, bidPresentItem, bidMissingItem,
      hasQuoteField, quoteMissingBid]
  have h3 := h (fun _ => majorityMissingResp) 3 4 15 "long" (fun _ => hbad)
  have hok : find_turbos_quote_phase (fun _ => majorityMissingResp) 3 4 15
      "long" = .ok bidPresentItem := by
    unfold find_turbos_quote_phase
    rw [show (3 : ℕ) = 2 + 1 from rfl,
      bidRetryLoop_all_fail (fun _ => majorityMissingResp) (fun _ => hbad) 2 0 []]
    rfl
  rw [hok] at h3
  exact Except.noConfusion h3

/-- C3 amended: if every quote-fetch attempt returns no data or leaves
strictly more than half the quoted items without a bid, then after
exhausting max_retries find_turbos continues with the final fetched
response, dropping only the items without a bid; it raises
NoMarketAvailableException from the bid stage exactly in the cases where
that final response is empty or no item of it has a bid price. -/
theorem find_turbos_retry_exhaustion (attempts : ℕ → List InfoPriceItem)
    (maxRetries : ℕ) (minPrice maxPrice : ℚ) (keywords : String)
    (hpos : 0 < maxRetries)
    (hbad : ∀ k, bidCheckFails (attempts k) = true) :
    find_turbos_quote_phase attempts maxRetries minPrice maxPrice keywords =
      postBidFilterPhase (attempts (maxRetries - 1)) minPrice maxPrice keywords ∧
    ((attempts (maxRetries - 1)).filter hasBidAttr = [] →
      find_turbos_quote_phase attempts maxRetries minPrice maxPrice keywords =
        .error .noMarketAvailable) := by
  obtain ⟨fuel, rfl⟩ : ∃ fuel, maxRetries = fuel + 1 := ⟨maxRetries - 1, by omega⟩
  have hloop : bidRetryLoop attempts (fuel + 1) 0 [] = attempts fuel := by
    rw [bidRetryLoop_all_fail attempts hbad fuel 0 []]
    congr 1
    omega
  constructor
  · unfold find_turbos_quote_phase
    rw [hloop]
    simp
  · intro hfil
    unfold find_turbos_quote_phase
    rw [hloop]
    exact postBidFilterPhase_no_bid _ _ _ _ (by simpa using hfil)

/-- Witness for C3 amended: a broker returning no quote data on every
attempt, with max_retries 2, ends in NoMarketAvailableException. -/
theorem find_turbos_retry_exhaustion_witness :
    find_turbos_quote_phase (fun _ => ([] : List InfoPriceItem)) 2 4 15 "long" =
      .error .noMarketAvailable :=
  (find_turbos_retry_exhaustion (fun _ => []) 2 4 15 "long" (by norm_num)
    (fun _ => rfl)).2 rfl

/-- C7 counterexample: with stoploss -20, takeprofit 60, daily target 1
percent, realized 1.25 percent so far today and computed performance -0.25
percent (itself reachable: open 400, bid 399), the exact combined factor
is 0.996875 percent, below the target, yet the code rounds it to two
decimals (1.00) and triggers the daily-target closure. -/
theorem daily_target_exact_claim_false : ¬ DailyTargetExactClaim := by
  intro h
  have hc := h ⟨-20, 60⟩ 1 (5/4) (-1/4)
  rw [show closeDecision ⟨-20, 60⟩ 1 (5/4) (-1/4) = some CloseReason.dailyTarget
    from by norm_num [closeDecision, pyRound2, roundHalfEven]] at hc
  norm_num at hc
  exact Option.noConfusion hc

/-- C7 amended: the closure decision is the first match of stoploss
(performance ≤ stoploss_percent), takeprofit (performance ≥
max_profit_percent), then the daily-target condition on the combined
factor expressed as a percent and rounded to two decimals; no closure
otherwise. -/
theorem closeDecision_first_match (th : Thresholds)
    (dailyTargetPercent todayRealizedPercent performancePercent : ℚ) :
    (closeDecision th dailyTargetPercent todayRealizedPercent performancePercent =
        some CloseReason.stoploss ↔ performancePercent ≤ th.stoplossPercent) ∧
    (closeDecision th dailyTargetPercent todayRealizedPercent performancePercent =
        some CloseReason.takeprofit ↔
      th.stoplossPercent < performancePercent ∧
        th.maxProfitPercent ≤ performancePercent) ∧
    (closeDecision th dailyTargetPercent todayRealizedPercent performancePercent =
        some CloseReason.dailyTarget ↔
      th.stoplossPercent < performancePercent ∧
        performancePercent < th.maxProfitPercent ∧
        dailyTargetPercent ≤ pyRound2 (((1 + todayRealizedPercent / 100) *
          (1 + performancePercent / 100) - 1) * 100)) ∧
    (closeDecision th dailyTargetPercent todayRealizedPercent performancePercent =
        none ↔
      th.stoplossPercent < performancePercent ∧
        performancePercent < th.maxProfitPercent ∧
        pyRound2 (((1 + todayRealizedPercent / 100) *
          (1 + performancePercent / 100) - 1) * 100) < dailyTargetPercent) := by
  simp only [closeDecision]
  split_ifs with h1 h2 h3
  · exact ⟨iff_of_true rfl h1,
      iff_of_false (by simp) (fun hc => absurd h1 (not_le.mpr hc.1)),
      iff_of_false (by simp) (fun hc => absurd h1 (not_le.mpr hc.1)),
      iff_of_false (by simp) (fun hc => absurd h1 (not_le.mpr hc.1))⟩
  · exact ⟨iff_of_false (by simp) h1,
      iff_of_true rfl ⟨not_le.mp h1, h2⟩,
      iff_of_false (by simp) (fun hc => absurd h2 (not_le.mpr hc.2.1)),
      iff_of_false (by simp) (fun hc => absurd h2 (not_le.mpr hc.2.1))⟩
  · exact ⟨iff_of_false (by simp) h1,
      iff_of_false (by simp) (fun hc => h2 hc.2),
      iff_of_true rfl ⟨not_le.mp h1, not_le.mp h2, h3⟩,
      iff_of_false (by simp) (fun hc => absurd h3 (not_le.mpr hc.2.2))⟩
  · exact ⟨iff_of_false (by simp) h1,
      iff_of_false (by simp) (fun hc => h2 hc.2),
      iff_of_false (by simp) (fun hc => h3 hc.2.2),
      iff_of_true rfl ⟨not_le.mp h1, not_le.mp h2, not_le.mp h3⟩⟩

/-- Witness for C7 amended: performance -30 with stoploss -20 triggers the
stoploss closure. -/
theorem closeDecision_first_match_witness :
    closeDecision ⟨-20, 60⟩ 1 0 (-30) = some CloseReason.stoploss :=
  (closeDecision_first_match ⟨-20, 60⟩ 1 0 (-30)).1.mpr (by norm_num)

/-- C8: when every ledger-open position id also appears in the broker
open-positions list, sync_db_positions_with_api returns no updates. The function
itself writes nothing to the ledger (the caller applies the returned
updates), so the state is unchanged and a repeated call on it returns the
same empty list. -/
theorem sync_agreement_idempotent (dbOpenIds apiOpenIds : List String)
    (apiClosed : List ClosedApiPosition)
    (h : ∀ i ∈ dbOpenIds, i ∈ apiOpenIds) :
    sync_db_positions_with_api dbOpenIds apiOpenIds apiClosed = [] := by
  unfold sync_db_positions_with_api
  by_cases hdb : dbOpenIds.isEmpty
  · rw [if_pos hdb]
  · rw [if_neg hdb]
    have hfil : dbOpenIds.filter (fun i => !(apiOpenIds.contains i)) = [] := by
      apply List.filter_eq_nil_iff.mpr
      intro a ha
      simp [h a ha]
    rw [hfil]
    rfl

/-- Witness for C8: one ledger-open position also open on the broker. -/
theorem sync_agreement_idempotent_witness :
    sync_db_positions_with_api ["p1"] ["p1", "p2"] [] = [] :=
  sync_agreement_idempotent ["p1"] ["p1", "p2"] [] (by decide)

/-- C9: a position_max_performance_percent update is queued only when the
newly computed performance strictly exceeds the stored maximum, and
applying the queued update never decreases the stored maximum. -/
theorem max_perf_update_monotone (th : Thresholds)
    (dailyTargetPercent todayRealizedPercent m : ℚ) (openPrice bid : Option ℚ) :
    (∀ v, (check_position_performance_step th dailyTargetPercent
        todayRealizedPercent (some m) openPrice bid).maxPerfUpdate = some v →
      m < v) ∧
    (∀ m2, applyMaxPerfUpdate (some m)
        (check_position_performance_step th dailyTargetPercent
          todayRealizedPercent (some m) openPrice bid).maxPerfUpdate = some m2 →
      m ≤ m2) := by
  cases openPrice with
  | none => simp [check_position_performance_step, applyMaxPerfUpdate]
  | some op =>
  cases bid with
  | none => simp [check_position_performance_step, applyMaxPerfUpdate]
  | some b =>
  by_cases hz : op = 0 ∨ b = 0
  · simp [check_position_performance_step, applyMaxPerfUpdate, hz]
  · by_cases hlt : m < pyRound2 (b * 100 / op - 100)
    · have e : (check_position_performance_step th dailyTargetPercent
          todayRealizedPercent (some m) (some op) (some b)).maxPerfUpdate =
          some (pyRound2 (b * 100 / op - 100)) := by
        simp [check_position_performance_step, hz, hlt]
      rw [e]
      refine ⟨fun v hv => ?_, fun m2 hm2 => ?_⟩
      · simp only [Option.some.injEq] at hv
        subst hv
        exact hlt
      · simp only [applyMaxPerfUpdate, Option.some.injEq] at hm2
        subst hm2
        exact le_of_lt hlt
    · have e : (check_position_performance_step th dailyTargetPercent
          todayRealizedPercent (some m) (some op) (some b)).maxPerfUpdate =
          none := by
        simp [check_position_performance_step, hz, hlt]
      rw [e]
      refine ⟨fun v hv => by simp at hv, fun m2 hm2 => ?_⟩
      simp only [applyMaxPerfUpdate, Option.some.injEq] at hm2
      exact hm2 ▸ le_rfl

/-- Witness for C9: stored maximum 1, open 100, bid 105: performance 5 is
queued and the stored maximum rises to 5. -/
theorem max_perf_update_monotone_witness :
    (check_position_performance_step ⟨-20, 60⟩ 1 0 (some 1) (some 100)
      (some 105)).maxPerfUpdate = some 5 ∧ (1 : ℚ) < 5 := by
  have e : (check_position_performance_step ⟨-20, 60⟩ 1 0 (some 1) (some 100)
      (some 105)).maxPerfUpdate = some 5 := by
    norm_num [check_position_performance_step, pyRound2, roundHalfEven]
  exact ⟨e, (max_perf_update_monotone ⟨-20, 60⟩ 1 0 1 (some 100) (some 105)).1 5 e⟩

/-- C10: a position whose broker record lacks OpenPrice or Bid, or whose
OpenPrice is 0, is skipped entirely by the performance check: no
performance is computed, no max-performance update is queued, and no
closure is triggered. -/
theorem skip_position_without_price_data (th : Thresholds)
    (dailyTargetPercent todayRealizedPercent : ℚ) (storedMax : Option ℚ)
    (openPrice bid : Option ℚ)
    (h : openPrice = none ∨ bid = none ∨ openPrice = some 0) :
    check_position_performance_step th dailyTargetPercent todayRealizedPercent
      storedMax openPrice bid = ⟨none, none, none⟩ := by
  rcases h with h | h | h
  · subst h; cases bid <;> rfl
  · subst h; cases openPrice <;> rfl
  · subst h
    cases bid with
    | none => rfl
    | some b => simp [check_position_performance_step]

/-- Witness for C10: a record with no OpenPrice is skipped. -/
theorem skip_position_without_price_data_witness :
    check_position_performance_step ⟨-20, 60⟩ 1 0 none none (some 5) =
      ⟨none, none, none⟩ :=
  skip_position_without_price_data ⟨-20, 60⟩ 1 0 none none (some 5) (Or.inl rfl)

end Wata
